import Mathlib

/-!
Verification development for the OpenFPA Planning & Forecasting Analytics
Engine.  Python services are shallowly embedded as Lean definitions over ℚ
(monetary amounts / floats whose computations stay rational) and ℝ (where the
source takes square roots or real powers).  Databases, HTTP and ORM plumbing
are abstracted away: each embedded function takes the rows the source would
have fetched as an explicit argument, and each random draw or wall-clock read
of the source is an explicit input stream.
-/

namespace OpenFPA

/-! ## Variance engine

Embeds `get_variance_analysis` (src/app/api/simple_analytics_routes.py,
lines 265-289) and the `variance_percentage` CASE expression of
`calculate_variance_for_period` (src/app/services/variance_analysis.py,
lines 41-45). -/

/-- From `simple_analytics_routes.get_variance_analysis` line 269:
`variance = actual - budget`. -/
def simpleVariance (actual budget : ℚ) : ℚ := actual - budget

/-- From `simple_analytics_routes.get_variance_analysis` line 270:
`variance_pct = (variance / budget * 100) if budget != 0 else 0`. -/
def simpleVariancePct (actual budget : ℚ) : ℚ :=
  if budget ≠ 0 then simpleVariance actual budget / budget * 100 else 0

/-- From `simple_analytics_routes.get_variance_analysis` lines 272-276: the
favorable/unfavorable/neutral status by account type and variance sign. -/
def varianceStatus (accountType : String) (variance : ℚ) : String :=
  if accountType = "expense" then
    if variance < 0 then "favorable" else if variance > 0 then "unfavorable" else "neutral"
  else
    if variance > 0 then "favorable" else if variance < 0 then "unfavorable" else "neutral"

/-- From the SQL CASE of `variance_analysis.calculate_variance_for_period`
lines 41-45: `NULL` when the budget is zero, otherwise
`(actual - budget) / ABS(budget) * 100`. -/
def svcVariancePercentage (actual budget : ℚ) : Option ℚ :=
  if budget = 0 then none else some ((actual - budget) / |budget| * 100)

/-! ## Step-function driver relationships

Embeds `DriverBasedPlanningService._calculate_step_function`
(src/app/services/analytics/driver_based_planning.py, lines 617-636).
The source receives the formula as a string `"lo-hi:value;...;lo-+:value"`,
splits it on `;` and `:`, and inspects each range part.  The embedding takes
the split result: one `StepEntry` per `;`-separated piece, whose range part is
 * `bounded lo hi` for `"lo-hi"`,
 * `openEnded lo` for `"lo-+"` (the `max_val == '+'` branch), and
 * `noDash` for a range part containing no `'-'` at all (such as the `"201+"`
   of the source's own doc comment), which the `if '-' in range_part` test
   skips without ever matching. -/

inductive StepRange where
  | bounded (lo hi : ℚ)
  | openEnded (lo : ℚ)
  | noDash
  deriving DecidableEq

structure StepEntry where
  range : StepRange
  value : ℚ
  deriving DecidableEq

/-- Whether a step's range part matches the driver value, per the source's
`float(min_val) <= driver_value <= float(max_val)` / `driver_value >=
float(min_val)` tests. -/
def stepMatches (r : StepRange) (drv : ℚ) : Bool :=
  match r with
  | .bounded lo hi => lo ≤ drv ∧ drv ≤ hi
  | .openEnded lo => lo ≤ drv
  | .noDash => false

/-- `_calculate_step_function`: return the value of the first step whose range
matches, else `0` after the loop. -/
def calculateStepFunction (steps : List StepEntry) (drv : ℚ) : ℚ :=
  match steps with
  | [] => 0
  | s :: rest =>
    if stepMatches s.range drv then s.value else calculateStepFunction rest drv

/-! ## Formula driver relationships

Embeds `DriverBasedPlanningService._evaluate_formula` (driver_based_planning.py
lines 638-665) and `create_driver_relationship` (lines 59-95).

The source stores the formula string verbatim at creation time (a bare SQL
INSERT — no token check, no driver-reference check, no error path) and
evaluates it with Python `eval` wrapped in `try/except: return 0`.  The
embedding represents the formula after parsing as an expression tree:
`malformed` stands for any string Python's `eval` rejects (including a string
still containing an unsubstituted `$driver` reference after the replacement
loop, which is a syntax error), and runtime failures (division by zero)
evaluate to `none`, so the wrapping `try/except` turns every failure into
`0`. -/

inductive FormulaExpr where
  | const (q : ℚ)
  | driverRef
  | otherDriver (id : String)
  | add (a b : FormulaExpr)
  | sub (a b : FormulaExpr)
  | mul (a b : FormulaExpr)
  | div (a b : FormulaExpr)
  | fmin (a b : FormulaExpr)
  | fmax (a b : FormulaExpr)
  | fabs (a : FormulaExpr)
  | malformed
  deriving DecidableEq

/-- Association-list lookup used to model Python `dict.get`. -/
def alistGet? {α : Type} [DecidableEq α] {β : Type} (m : List (α × β)) (k : α) :
    Option β :=
  (m.find? (fun p => p.1 = k)).map (·.2)

/-- Nested `driver_assumptions[driver_id][period_id]` lookup; `none` when
either key is absent (Python `dict.get(..., {}).get(..., 0)` would default,
the defaulting is applied at each call site exactly where the source does). -/
def assumptionGet? (assumptions : List (String × List (String × ℚ)))
    (driverId periodId : String) : Option ℚ :=
  match alistGet? assumptions driverId with
  | none => none
  | some periods => alistGet? periods periodId

/-- The `eval` step of `_evaluate_formula`: `none` models a raised exception
(syntax error from a `malformed`/unsubstituted formula, or ZeroDivisionError),
caught by the source's bare `except`. A reference `$<driver_id>` is replaced
only when that driver has a value for the evaluated period; otherwise the
`$...` text survives substitution and `eval` raises. -/
def evalFormulaExpr (e : FormulaExpr) (driverValue : ℚ)
    (allDrivers : List (String × List (String × ℚ))) (periodId : String) :
    Option ℚ :=
  match e with
  | .const q => some q
  | .driverRef => some driverValue
  | .otherDriver id => assumptionGet? allDrivers id periodId
  | .add a b => do pure ((← evalFormulaExpr a driverValue allDrivers periodId) +
      (← evalFormulaExpr b driverValue allDrivers periodId))
  | .sub a b => do pure ((← evalFormulaExpr a driverValue allDrivers periodId) -
      (← evalFormulaExpr b driverValue allDrivers periodId))
  | .mul a b => do pure ((← evalFormulaExpr a driverValue allDrivers periodId) *
      (← evalFormulaExpr b driverValue allDrivers periodId))
  | .div a b => do
      let x ← evalFormulaExpr a driverValue allDrivers periodId
      let y ← evalFormulaExpr b driverValue allDrivers periodId
      if y = 0 then none else pure (x / y)
  | .fmin a b => do pure (min (← evalFormulaExpr a driverValue allDrivers periodId)
      (← evalFormulaExpr b driverValue allDrivers periodId))
  | .fmax a b => do pure (max (← evalFormulaExpr a driverValue allDrivers periodId)
      (← evalFormulaExpr b driverValue allDrivers periodId))
  | .fabs a => do pure |← evalFormulaExpr a driverValue allDrivers periodId|
  | .malformed => none

/-- `_evaluate_formula`: evaluate, with the `try/except: return 0` wrapper. -/
def evaluateFormula (e : FormulaExpr) (driverValue : ℚ)
    (allDrivers : List (String × List (String × ℚ))) (periodId : String) : ℚ :=
  (evalFormulaExpr e driverValue allDrivers periodId).getD 0

/-- Engine-level error taxonomy named by the specification (§7).  The source
defines no such exception classes; the constructors exist so that embedded
creation/validation functions can state which errors they can and cannot
produce. -/
inductive EngineError where
  | invalidFormula
  | insufficientHistory (msg : String)
  deriving DecidableEq

/-- The row `create_driver_relationship` inserts (driver_based_planning.py
lines 73-92). -/
structure DriverRelationshipRow where
  businessDriverId : String
  glAccountId : String
  costCenterId : Option String
  relationshipType : String
  coefficient : ℚ
  formula : Option FormulaExpr
  isActive : Bool
  deriving DecidableEq

/-- `create_driver_relationship` (lines 59-95): builds the row and INSERTs it.
There is no validation of `formula` (or of anything else) anywhere in the
function — no token whitelist, no declared-driver check — and no error
return path, so the embedding always succeeds. -/
def createDriverRelationship (driverId glAccountId : String)
    (relationshipType : String) (coefficient : ℚ) (formula : Option FormulaExpr)
    (costCenterId : Option String) : Except EngineError DriverRelationshipRow :=
  .ok { businessDriverId := driverId
        glAccountId := glAccountId
        costCenterId := costCenterId
        relationshipType := relationshipType
        coefficient := coefficient
        formula := formula
        isActive := true }

/-! ## Per-period driver-based forecast

Embeds `DriverBasedPlanningService._calculate_period_forecast`
(driver_based_planning.py lines 142-225), `calculate_driver_based_forecast`
(lines 97-140) and `perform_sensitivity_analysis` (lines 227-277).  The
relationship rows the source fetches with its JOIN query are an explicit list
argument; the `gl_accounts.account_type` lookups of `_is_revenue_account` /
`_is_expense_account` are an explicit association list. -/

/-- `driver_assumptions : {driver_id: {period_id: value}}`. -/
abbrev Assumptions := List (String × List (String × ℚ))

/-- Python dict of per-account running totals (`account_values`), insertion
ordered. -/
abbrev AccMap := List (String × ℚ)

/-- A relationship row as consumed by `_calculate_period_forecast`.  The DB
stores `relationship_type` as a string and `formula` as a string column that
is parsed as a step function or as a custom formula depending on the type;
the embedding carries the parsed payload with the kind. `other` covers every
unrecognized `relationship_type` string (the source's trailing `else`). -/
inductive RelKind where
  | linear
  | percentage
  | stepFunction (steps : List StepEntry)
  | customFormula (e : FormulaExpr)
  | other (typeName : String)
  deriving DecidableEq

structure PeriodRelationship where
  businessDriverId : String
  glAccountId : String
  kind : RelKind
  coefficient : ℚ
  deriving DecidableEq

/-- `account_values.get(account_id, 0)`. -/
def AccMap.getD0 (m : AccMap) (k : String) : ℚ := (alistGet? m k).getD 0

/-- Python `if account_id not in account_values: account_values[account_id] = 0;
account_values[account_id] += account_value` — add to the entry, inserting it
(at the end, in dict insertion order) when absent. -/
def AccMap.addTo (m : AccMap) (k : String) (v : ℚ) : AccMap :=
  if (m.find? (fun p => p.1 = k)).isSome then
    m.map (fun p => if p.1 = k then (p.1, p.2 + v) else p)
  else m ++ [(k, v)]

/-- Lines 183-198: the per-relationship `account_value` by relationship type.
The `percentage` branch reads the *current* running total of the target
account itself (`base_value = account_values.get(account_id, 0)`). -/
def relAccountValue (accountValues : AccMap) (assumptions : Assumptions)
    (periodId : String) (rel : PeriodRelationship) (driverValue : ℚ) : ℚ :=
  match rel.kind with
  | .linear => driverValue * rel.coefficient
  | .percentage => accountValues.getD0 rel.glAccountId * (rel.coefficient / 100)
  | .stepFunction steps => calculateStepFunction steps driverValue
  | .customFormula e => evaluateFormula e driverValue assumptions periodId
  | .other _ => driverValue

/-- One iteration of the relationship loop (lines 175-203):
`driver_value = driver_assumptions.get(driver_id, {}).get(period_id, 0)`;
`if driver_value:` — a missing or zero value makes the whole body a no-op. -/
def processRelationship (assumptions : Assumptions) (periodId : String)
    (accountValues : AccMap) (rel : PeriodRelationship) : AccMap :=
  let driverValue := (assumptionGet? assumptions rel.businessDriverId periodId).getD 0
  if driverValue ≠ 0 then
    accountValues.addTo rel.glAccountId
      (relAccountValue accountValues assumptions periodId rel driverValue)
  else accountValues

/-- The `account_values` dict after the full relationship loop. -/
def periodAccountValues (rels : List PeriodRelationship)
    (assumptions : Assumptions) (periodId : String) : AccMap :=
  rels.foldl (processRelationship assumptions periodId) []

/-- `_is_revenue_account`: the fetched row's `account_type` equals
`'revenue'`; false when the account row is missing. -/
def isRevenueAccount (accountTypes : List (String × String)) (accountId : String) :
    Bool :=
  alistGet? accountTypes accountId = some "revenue"

/-- `_is_expense_account`. -/
def isExpenseAccount (accountTypes : List (String × String)) (accountId : String) :
    Bool :=
  alistGet? accountTypes accountId = some "expense"

structure PeriodForecast where
  periodId : String
  accountValues : AccMap
  totalRevenue : ℚ
  totalExpenses : ℚ
  ebitda : ℚ
  ebitdaMargin : ℚ
  deriving DecidableEq

/-- Modelled from the spec: `self._create_budget_line(scenario_id, account_id,
period_id, amount)` is called in the persistence loop of
`_calculate_period_forecast` (driver_based_planning.py lines 206-209) but is
defined nowhere in the repository — on the source as written, that loop dies
with `AttributeError` as soon as `account_values` is non-empty.  Per §5/§1 of
the spec the engine's storing of computed lines is pure persistence with no
effect on the returned result ("the engine never writes to persistent storage
itself; persistence … is the caller's responsibility"), so the missing write
is modelled as the identity on the computed account values. -/
def createBudgetLines (accountValues : AccMap) : AccMap := accountValues

/-- `_calculate_period_forecast` summary (lines 205-225): persist the
computed account values (see `createBudgetLines`), then aggregate. -/
def calculatePeriodForecast (rels : List PeriodRelationship)
    (accountTypes : List (String × String)) (assumptions : Assumptions)
    (periodId : String) : PeriodForecast :=
  let av := createBudgetLines (periodAccountValues rels assumptions periodId)
  let revenue := ((av.filter (fun p => isRevenueAccount accountTypes p.1)).map (·.2)).sum
  let expenses := ((av.filter (fun p => isExpenseAccount accountTypes p.1)).map (·.2)).sum
  let ebitda := revenue - expenses
  { periodId := periodId
    accountValues := av
    totalRevenue := revenue
    totalExpenses := expenses
    ebitda := ebitda
    ebitdaMargin := if revenue ≠ 0 then ebitda / revenue * 100 else 0 }

structure ForecastSummary where
  totalRevenue : ℚ
  totalExpenses : ℚ
  ebitda : ℚ
  ebitdaMargin : ℚ
  deriving DecidableEq

/-- `calculate_driver_based_forecast` (lines 97-140): per-period results plus
aggregated summary, `ebitda_margin = total_ebitda/total_revenue*100` with `0`
when total revenue is zero. -/
def calculateDriverBasedForecast (rels : List PeriodRelationship)
    (accountTypes : List (String × String)) (fiscalPeriods : List String)
    (assumptions : Assumptions) : List PeriodForecast × ForecastSummary :=
  let results := fiscalPeriods.map (calculatePeriodForecast rels accountTypes assumptions)
  let tr := (results.map (·.totalRevenue)).sum
  let te := (results.map (·.totalExpenses)).sum
  let eb := (results.map (·.ebitda)).sum
  (results,
   { totalRevenue := tr
     totalExpenses := te
     ebitda := eb
     ebitdaMargin := if tr ≠ 0 then eb / tr * 100 else 0 })

/-! ## Sensitivity analysis -/

/-- `np.linspace(min_pct, max_pct, steps)`: `steps` evenly spaced points,
endpoints included (`[min]` when `steps = 1`, `[]` when `steps = 0`). -/
def linspace (lo hi : ℚ) (steps : ℕ) : List ℚ :=
  if steps ≤ 1 then (List.range steps).map (fun _ => lo)
  else (List.range steps).map (fun i : ℕ => lo + (hi - lo) * (i : ℚ) / ((steps - 1 : ℕ) : ℚ))

/-- Lines 251-254: scale every period value of the examined driver by
`1 + variation/100`, leaving every other driver untouched. -/
def adjustDriverValues (vals : Assumptions) (driverId : String) (variation : ℚ) :
    Assumptions :=
  vals.map (fun p =>
    if p.1 = driverId then
      (p.1, p.2.map (fun q => (q.1, q.2 * (1 + variation / 100))))
    else p)

structure SensitivityPoint where
  variationPct : ℚ
  revenue : ℚ
  expenses : ℚ
  ebitda : ℚ
  ebitdaMargin : ℚ
  deriving DecidableEq

/-- The grid loop of `perform_sensitivity_analysis` (lines 249-270).  The
source's `adjusted_values = base_values.copy()` is a *shallow* dict copy: the
per-driver inner dict is shared with `base_values`, so the in-place update
`adjusted_values[driver_id][period] = original * (1 + variation / 100)` also
mutates `base_values`, and the next grid iteration reads the already-scaled
values.  The embedding captures this by threading the updated assumption set
into the recursive call (only the examined driver's entries ever change, so
threading the whole map is equivalent to sharing the inner dict). -/
def sensitivityLoop (rels : List PeriodRelationship)
    (accountTypes : List (String × String)) (driverId : String)
    (periods : List String) : List ℚ → Assumptions → List SensitivityPoint
  | [], _ => []
  | v :: vs, state =>
    let adjusted := adjustDriverValues state driverId v
    let s := (calculateDriverBasedForecast rels accountTypes periods adjusted).2
    { variationPct := v
      revenue := s.totalRevenue
      expenses := s.totalExpenses
      ebitda := s.ebitda
      ebitdaMargin := s.ebitdaMargin } ::
      sensitivityLoop rels accountTypes driverId periods vs adjusted

/-- Modelled from the spec: `self._get_driver_values(base_scenario_id)`, the
first statement of `perform_sensitivity_analysis` (driver_based_planning.py
line 241), is defined nowhere in the repository — on the source as written
every call raises `AttributeError` before the grid loop runs.  Per §4.4 the
sensitivity run starts from "a baseline driver-assumption set" read for the
scenario (a pure read per §5), so the fetch is modelled as returning the
given baseline assumption set. -/
def getDriverValues (baseValues : Assumptions) : Assumptions := baseValues

/-- `perform_sensitivity_analysis` (lines 227-277), with the absent
`_get_driver_values` collaborator spec-modelled (see `getDriverValues`): the
forecast periods are the keys of the examined driver's assumption dict
(`list(base_values[driver_id].keys())`, unchanged by the value mutations). -/
def performSensitivityAnalysis (rels : List PeriodRelationship)
    (accountTypes : List (String × String)) (baseValues : Assumptions)
    (driverId : String) (variationRange : ℚ × ℚ) (steps : ℕ) :
    List SensitivityPoint :=
  let base := getDriverValues baseValues
  let variations := linspace variationRange.1 variationRange.2 steps
  let periods := ((alistGet? base driverId).getD []).map (·.1)
  sensitivityLoop rels accountTypes driverId periods variations base

/-- Modelled from the spec: the sensitivity run §4.4 / claim wording —
"recompute the full driver-based forecast once per grid point (driver value
replaced by `base × (1+variation)`, all other drivers held at baseline)",
every grid point computed independently from the same unmodified baseline
assumption set (read through the same spec-modelled `getDriverValues` fetch).
Used to compare the source behaviour against the claim. -/
def performSensitivityAnalysisIndependent (rels : List PeriodRelationship)
    (accountTypes : List (String × String)) (baseValues : Assumptions)
    (driverId : String) (variationRange : ℚ × ℚ) (steps : ℕ) :
    List SensitivityPoint :=
  let base := getDriverValues baseValues
  let variations := linspace variationRange.1 variationRange.2 steps
  let periods := ((alistGet? base driverId).getD []).map (·.1)
  variations.map (fun v =>
    let adjusted := adjustDriverValues base driverId v
    let s := (calculateDriverBasedForecast rels accountTypes periods adjusted).2
    { variationPct := v
      revenue := s.totalRevenue
      expenses := s.totalExpenses
      ebitda := s.ebitda
      ebitdaMargin := s.ebitdaMargin })

/-! ## Shared numeric helpers (np.mean, pandas std, least squares, Python round) -/

/-- `np.mean` / `sum(l)/len(l)` (with ℚ's `x/0 = 0` for the empty list, which
the call sites never pass). -/
def listMean (l : List ℚ) : ℚ := l.sum / l.length

/-- Python `min` of a nonempty list (`0` for `[]`, never hit at call sites). -/
def listMin : List ℚ → ℚ
  | [] => 0
  | a :: t => t.foldl min a

/-- pandas `Series.std()`: *sample* variance (ddof = 1) under the square
root; the embedding keeps the variance itself and compares squares instead
of taking the root (see `cleanOutliers`). -/
def sampleVar (l : List ℚ) : ℚ :=
  let m := listMean l
  ((l.map (fun x => (x - m) ^ 2)).sum) / ((l.length : ℚ) - 1)

/-- Ordinary-least-squares slope of `(x, y)` points, as computed by
`sklearn.LinearRegression.fit` / `np.polyfit(x, y, 1)`:
`(nΣxy − ΣxΣy) / (nΣx² − (Σx)²)`. -/
def fitSlope (pts : List (ℕ × ℚ)) : ℚ :=
  let n : ℚ := pts.length
  let sx := (pts.map (fun p => (p.1 : ℚ))).sum
  let sy := (pts.map (·.2)).sum
  let sxy := (pts.map (fun p => (p.1 : ℚ) * p.2)).sum
  let sxx := (pts.map (fun p => ((p.1 : ℚ)) ^ 2)).sum
  (n * sxy - sx * sy) / (n * sxx - sx ^ 2)

/-- OLS intercept: `(Σy − slope·Σx)/n`. -/
def fitIntercept (pts : List (ℕ × ℚ)) : ℚ :=
  let n : ℚ := pts.length
  let sx := (pts.map (fun p => (p.1 : ℚ))).sum
  let sy := (pts.map (·.2)).sum
  (sy - fitSlope pts * sx) / n

/-- Python `round()` to the nearest integer, ties to even. -/
def pyRoundInt (x : ℚ) : ℤ :=
  let f := ⌊x⌋
  let r := x - f
  if r < 1 / 2 then f
  else if r > 1 / 2 then f + 1
  else if Even f then f else f + 1

/-- Python `round(x, ndigits)`. -/
def pyRound (ndigits : ℕ) (x : ℚ) : ℚ :=
  (pyRoundInt (x * 10 ^ ndigits) : ℚ) / 10 ^ ndigits

/-! ## Linear-trend forecasting service

Embeds `ForecastingService.create_linear_trend_forecast`
(src/app/services/forecasting.py, lines 60-128).  The historical rows the
source fetches are passed as the list of their `actual_amount` values, in the
fetched order; `df['period_index'] = range(len(df))` is the enumeration
index.  `np.std` (population, ddof = 0) enters only through the symmetric
confidence band `predicted ± 1.96·std(residuals)`; the point carries the mean
squared residual and the band bounds are derived accessors taking the real
square root. -/

/-- Outlier cleaning (lines 82-87): keep rows with
`abs(amount - mean) <= 2 * std` where `std` is the pandas sample standard
deviation; since both sides are nonnegative and `std = √var`, this is the
decidable condition `(amount - mean)² ≤ 4·var`.  Fall back to the full data
when fewer than 3 rows survive. -/
def cleanOutliers (pts : List (ℕ × ℚ)) (m v : ℚ) : List (ℕ × ℚ) :=
  let cleaned := pts.filter (fun p => (p.2 - m) ^ 2 ≤ 4 * v)
  if cleaned.length < 3 then pts else cleaned

structure LinearForecastPoint where
  periodIndex : ℕ
  forecastedAmount : ℚ
  /-- mean squared in-sample residual, `np.std(residuals)²`. -/
  residualMsd : ℚ
  confidenceScore : ℚ
  deriving DecidableEq

/-- `confidence_interval_low = predicted - 1.96 * np.std(residuals)`. -/
noncomputable def LinearForecastPoint.intervalLow (p : LinearForecastPoint) : ℝ :=
  (p.forecastedAmount : ℝ) - (196 / 100 : ℝ) * Real.sqrt (p.residualMsd : ℝ)

/-- `confidence_interval_high = predicted + 1.96 * np.std(residuals)`. -/
noncomputable def LinearForecastPoint.intervalHigh (p : LinearForecastPoint) : ℝ :=
  (p.forecastedAmount : ℝ) + (196 / 100 : ℝ) * Real.sqrt (p.residualMsd : ℝ)

structure LinearTrendResult where
  forecasts : List LinearForecastPoint
  /-- `r2_score(y, y_pred)`, `1 - SSres/SStot` (sklearn's degenerate
  zero-variance cases are never hit at the inputs considered). -/
  r2 : ℚ
  /-- `mean_absolute_percentage_error(y, y_pred) if min(y) != 0 else 0`. -/
  mape : ℚ
  historicalPeriodsUsed : ℕ
  deriving DecidableEq

/-- `create_linear_trend_forecast` on the fetched `actual_amount` series. -/
def createLinearTrendForecast (historicalData : List ℚ) (forecastPeriods : ℕ) :
    Except String LinearTrendResult :=
  if historicalData.length < 6 then .error "Insufficient historical data"
  else
    let pts := (List.range historicalData.length).zip historicalData
    let m := listMean historicalData
    let v := sampleVar historicalData
    let clean := cleanOutliers pts m v
    let slope := fitSlope clean
    let intercept := fitIntercept clean
    let y := clean.map (·.2)
    let ypred := clean.map (fun p => slope * (p.1 : ℚ) + intercept)
    let pairs := y.zip ypred
    let residuals := pairs.map (fun q => q.1 - q.2)
    let ssRes := (residuals.map (· ^ 2)).sum
    let ymean := listMean y
    let ssTot := (y.map (fun a => (a - ymean) ^ 2)).sum
    let r2 := 1 - ssRes / ssTot
    let mape := if listMin y ≠ 0 then listMean (pairs.map (fun q => |(q.1 - q.2) / q.1|))
      else 0
    let msd := (residuals.map (· ^ 2)).sum / (residuals.length : ℚ)
    .ok
      { forecasts := (List.range forecastPeriods).map (fun i =>
          { periodIndex := historicalData.length + i
            forecastedAmount := slope * ((historicalData.length + i : ℕ) : ℚ) + intercept
            residualMsd := msd
            confidenceScore := r2 })
        r2 := r2
        mape := mape
        historicalPeriodsUsed := clean.length }

/-! ## Accuracy evaluator

Embeds `_calculate_accuracy_metrics` (src/app/api/planning_routes.py, lines
392-435) on the `revenue` column of its input rows, and
`ForecastingService.get_forecast_accuracy` (src/app/services/forecasting.py,
lines 332-392) on the fetched `(forecasted_amount, actual_amount)` rows. -/

structure AccuracyMetrics where
  /-- the reported `mape`, `round(-, 2)`. -/
  mape : ℚ
  /-- mean squared validation error; the source reports
  `rmse = round(√mse, 2)`. -/
  mse : ℚ
  /-- the reported `r_squared`, `round(-, 4)`. -/
  rSquared : ℚ
  deriving DecidableEq

noncomputable def AccuracyMetrics.rmse (a : AccuracyMetrics) : ℝ :=
  Real.sqrt (a.mse : ℝ)

/-- The 70%-training slice: `revenues[:int(len(revenues) * 0.7)]` (the float
product truncates to ⌊7n/10⌋ at these magnitudes). -/
def accTrain (revenues : List ℚ) : List ℚ :=
  revenues.take (revenues.length * 7 / 10)

/-- The 30%-validation slice: `revenues[int(len(revenues) * 0.7):]`. -/
def accTest (revenues : List ℚ) : List ℚ :=
  revenues.drop (revenues.length * 7 / 10)

/-- The simple trend prediction of the validation slice (lines 408-414):
`avg_growth = np.mean(np.diff(train_data))`, `base = train_data[-1]`,
prediction `i` is `base + avg_growth * (i + 1)`. -/
def accPredictions (revenues : List ℚ) : List ℚ :=
  let train := accTrain revenues
  let diffs := (train.zip (train.drop 1)).map (fun p => p.2 - p.1)
  let avgGrowth := diffs.sum / (diffs.length : ℚ)
  (List.range (accTest revenues).length).map
    (fun i : ℕ => train.getLastD 0 + avgGrowth * ((i : ℚ) + 1))

/-- `zip(test_data, predictions)`. -/
def accPairs (revenues : List ℚ) : List (ℚ × ℚ) :=
  (accTest revenues).zip (accPredictions revenues)

/-- `_calculate_accuracy_metrics`.  Note the source first keeps only rows
with `revenue > 0` (line 395), then splits, fits and predicts; the MAPE loop
adds `abs((actual - pred) / actual)` only when `actual > 0` but divides by
`len(test_data)`; `r_squared` is `1 - ss_res/ss_tot` when `ss_tot > 0`, else
0. -/
def calculateAccuracyMetrics (revenuesAll : List ℚ) : AccuracyMetrics :=
  let revenues := revenuesAll.filter (fun r => 0 < r)
  if revenues.length < 6 then ⟨0, 0, 0⟩
  else if (accTrain revenues).length < 2 ∨ (accTest revenues).length < 2 then ⟨0, 0, 0⟩
  else
    let test := accTest revenues
    let pairs := accPairs revenues
    let mapeSum := (pairs.map (fun p => if 0 < p.1 then |(p.1 - p.2) / p.1| else 0)).sum
    let mape := if test.length ≠ 0 then mapeSum / (test.length : ℚ) * 100 else 0
    let mse := (pairs.map (fun p => (p.1 - p.2) ^ 2)).sum / (pairs.length : ℚ)
    let testMean := test.sum / (test.length : ℚ)
    let ssRes := (pairs.map (fun p => (p.1 - p.2) ^ 2)).sum
    let ssTot := (test.map (fun a => (a - testMean) ^ 2)).sum
    let r2 := if 0 < ssTot then 1 - ssRes / ssTot else 0
    ⟨pyRound 2 mape, mse, pyRound 4 r2⟩

/-- Modelled from the spec: the accuracy-evaluator contract as the claim
states it — split *the historical series* 70/30 (no pre-filtering), fit the
same mean-first-difference trend on the training slice, predict the
validation slice, and report MAPE averaged only over validation points whose
actual is nonzero (zero-actual points excluded from the average, not
substituted), the mean squared error, and `R² = 1 − SSres/SStot` with `0`
when `SStot = 0`.  Used to compare the source behaviour against the claim. -/
def accuracyMetricsPerClaim (revenues : List ℚ) : AccuracyMetrics :=
  let test := accTest revenues
  let pairs := accPairs revenues
  let nz := pairs.filter (fun p => p.1 ≠ 0)
  let mape := if nz.length ≠ 0 then
      ((nz.map (fun p => |(p.1 - p.2) / p.1|)).sum / (nz.length : ℚ)) * 100
    else 0
  let mse := (pairs.map (fun p => (p.1 - p.2) ^ 2)).sum / (pairs.length : ℚ)
  let testMean := test.sum / (test.length : ℚ)
  let ssRes := (pairs.map (fun p => (p.1 - p.2) ^ 2)).sum
  let ssTot := (test.map (fun a => (a - testMean) ^ 2)).sum
  let r2 := if ssTot = 0 then 0 else 1 - ssRes / ssTot
  ⟨mape, mse, r2⟩

structure ForecastAccuracy where
  mape : ℚ
  mae : ℚ
  mse : ℚ
  deriving DecidableEq

/-- `get_forecast_accuracy` on `(forecasted_amount, actual_amount)` rows:
MAPE is `np.mean` over the comprehension that *skips* zero actuals (they are
excluded from the average, not zero-substituted). -/
def getForecastAccuracy (data : List (ℚ × ℚ)) : Except String ForecastAccuracy :=
  if data.length < 2 then .error "Insufficient data for accuracy calculation"
  else
    let mapeTerms := data.filterMap
      (fun p => if p.2 ≠ 0 then some |(p.2 - p.1) / p.2| else none)
    let mape := mapeTerms.sum / (mapeTerms.length : ℚ) * 100
    let mae := (data.map (fun p => |p.2 - p.1|)).sum / (data.length : ℚ)
    let mse := (data.map (fun p => (p.2 - p.1) ^ 2)).sum / (data.length : ℚ)
    .ok ⟨mape, mae, mse⟩

/-! ## Revenue planning service

Embeds `RevenuePlanningService.generate_revenue_forecast`
(src/app/services/planning/revenue_planning.py, lines 72-120) for the default
`method = 'trend'`, together with `_trend_analysis_forecast` (lines 122-195,
`linear` and `exponential` trend types; the `polynomial` branch, lines
166-180, is not exercised by any claim and is outside the model),
`_calculate_forecast_confidence` (lines 931-966) and
`_generate_sample_revenue_data` (lines 1017-1045).  Amounts are ℝ because the
exponential branch takes the real 12th root of the growth factor and the
volatility is a real standard deviation.  The `datetime.now()`-derived
calendar labels of the sample generator and its `np.random.normal` draws are
explicit input streams. -/

/-- A historical revenue row (`year`, `month`, `revenue`) as produced by
`_get_historical_revenue` or `_generate_sample_revenue_data`. -/
structure RevObs where
  year : ℕ
  month : ℕ
  revenue : ℝ

/-- `np.mean` over ℝ. -/
noncomputable def rmean (l : List ℝ) : ℝ := l.sum / l.length

/-- `np.std` (population, ddof = 0). -/
noncomputable def npStd (l : List ℝ) : ℝ :=
  Real.sqrt (((l.map (fun x => (x - rmean l) ^ 2)).sum) / l.length)

/-- OLS slope over ℝ (`np.polyfit(x, y, 1)[0]` with `x = arange(len y)`). -/
noncomputable def rfitSlope (pts : List (ℕ × ℝ)) : ℝ :=
  let n : ℝ := pts.length
  let sx := (pts.map (fun p => (p.1 : ℝ))).sum
  let sy := (pts.map (·.2)).sum
  let sxy := (pts.map (fun p => (p.1 : ℝ) * p.2)).sum
  let sxx := (pts.map (fun p => ((p.1 : ℝ)) ^ 2)).sum
  (n * sxy - sx * sy) / (n * sxx - sx ^ 2)

/-- OLS intercept over ℝ (`np.polyfit(x, y, 1)[1]`). -/
noncomputable def rfitIntercept (pts : List (ℕ × ℝ)) : ℝ :=
  let n : ℝ := pts.length
  let sx := (pts.map (fun p => (p.1 : ℝ))).sum
  let sy := (pts.map (·.2)).sum
  (sy - rfitSlope pts * sx) / n

/-- The hard-coded seasonality table of `_generate_sample_revenue_data`. -/
def sampleSeasonality : List ℚ :=
  [9/10, 85/100, 95/100, 1, 105/100, 11/10, 115/100, 11/10, 105/100, 1, 95/100, 12/10]

/-- `_generate_sample_revenue_data`: 24 synthetic observations,
`max(0, 100000·1.15^((24−i)/24)·seasonality[month−1] + noise)`.
`months` are the `(year, month)` labels the source derives from
`datetime.now() - timedelta(days=i*30)` for `i = 24..1`, and `noise` the
`np.random.normal(0, revenue*0.1)` draws, both as explicit streams (the
element at position `k` corresponds to `i = 24 - k`). -/
noncomputable def sampleRevenueData (months : List (ℕ × ℕ)) (noise : List ℝ) :
    List RevObs :=
  (((List.range (months.zip noise).length).zip (months.zip noise)).map (fun q =>
    let k := q.1
    let y := q.2.1.1
    let mo := q.2.1.2
    let ns := q.2.2
    let growth : ℝ := ((115 : ℝ) / 100) ^ ((k : ℝ) / 24)
    let seasonal : ℝ := ((sampleSeasonality.getD (mo - 1) 1 : ℚ) : ℝ)
    { year := y, month := mo, revenue := max 0 (100000 * growth * seasonal + ns) }))

/-- `params.get(...)` defaults of `_trend_analysis_forecast` /
`generate_revenue_forecast`. The source's `trend_type` is a string; only the
two modelled branches are represented. -/
inductive TrendType where
  | linear
  | exponential
  deriving DecidableEq

structure TrendParams where
  forecastMonths : ℕ := 12
  trendType : TrendType := .linear
  growthRate : ℝ := 15 / 100
  confidenceLevel : ℚ := 95 / 100

/-- The per-month `'forecast'` values of `_trend_analysis_forecast`
(lines 138-164): the linear branch extrapolates the OLS line at
`len(revenues) + i` and floors at zero (`max(0, forecast_value)`); the
exponential branch compounds `base_revenue` (mean of the last 3 revenues, or
the last one when fewer than 3 exist) by the monthly growth
`(1+growth_rate)^(1/12) - 1` and applies **no** floor. -/
noncomputable def trendForecastValues (revenues : List ℝ) (p : TrendParams) :
    List ℝ :=
  match p.trendType with
  | .linear =>
    let pts := (List.range revenues.length).zip revenues
    let slope := rfitSlope pts
    let intercept := rfitIntercept pts
    (List.range p.forecastMonths).map (fun j =>
      max 0 (slope * ((revenues.length + (j + 1) : ℕ) : ℝ) + intercept))
  | .exponential =>
    let base := if 3 ≤ revenues.length then
        rmean (revenues.drop (revenues.length - 3))
      else revenues.getLastD 0
    let monthlyGrowth : ℝ := (1 + p.growthRate) ^ ((1 : ℝ) / 12) - 1
    (List.range p.forecastMonths).map (fun j =>
      base * (1 + monthlyGrowth) ^ (j + 1))

structure ConfInterval where
  forecast : ℝ
  lower : ℝ
  upper : ℝ

/-- `_calculate_forecast_confidence` (lines 931-966): volatility is the
population standard deviation of the period-over-period returns
(`np.diff(revenues)/revenues[:-1]`), 0.1 when fewer than 2 revenues exist;
`uncertainty = volatility·√(i+1)·z`; `lower = max(0, f·(1−u))`,
`upper = f·(1+u)`. -/
noncomputable def calculateForecastConfidence (forecastValues : List ℝ)
    (histRevenues : List ℝ) (confidenceLevel : ℚ) : List ConfInterval :=
  let volatility : ℝ :=
    if 1 < histRevenues.length then
      npStd ((histRevenues.zip (histRevenues.drop 1)).map
        (fun q => (q.2 - q.1) / q.1))
    else (1 : ℝ) / 10
  let z : ℝ :=
    if confidenceLevel = 90 / 100 then 1645 / 1000
    else if confidenceLevel = 95 / 100 then 196 / 100
    else if confidenceLevel = 99 / 100 then 2576 / 1000
    else 196 / 100
  ((List.range forecastValues.length).zip forecastValues).map (fun q =>
    let uncertainty := volatility * Real.sqrt ((q.1 : ℝ) + 1) * z
    { forecast := q.2
      lower := max 0 (q.2 * (1 - uncertainty))
      upper := q.2 * (1 + uncertainty) })

structure TrendForecast where
  forecastData : List ℝ
  confidenceIntervals : List ConfInterval
  totalForecast : ℝ

/-- `_trend_analysis_forecast`: forecast values plus their confidence
intervals and total. -/
noncomputable def trendAnalysisForecast (historical : List RevObs)
    (p : TrendParams) : TrendForecast :=
  let fvals := trendForecastValues (historical.map (·.revenue)) p
  { forecastData := fvals
    confidenceIntervals :=
      calculateForecastConfidence fvals (historical.map (·.revenue)) p.confidenceLevel
    totalForecast := fvals.sum }

/-- `generate_revenue_forecast` for `method = 'trend'` (lines 79-93): when the
fetched history has fewer than 6 observations it is **replaced by
engine-generated sample data** (`historical_data =
self._generate_sample_revenue_data()`) and the forecast proceeds; there is no
insufficient-history error path.  (The segment/pipeline/recurring metadata
the route also attaches, lines 109-118, is read-only reporting outside the
model.) -/
noncomputable def generateRevenueForecastTrend (historical : List RevObs)
    (p : TrendParams) (sampleMonths : List (ℕ × ℕ)) (sampleNoise : List ℝ) :
    TrendForecast :=
  let hist := if historical.length < 6 then sampleRevenueData sampleMonths sampleNoise
    else historical
  trendAnalysisForecast hist p

/-! ## Concrete example inputs used by the claim theorems -/

/-- The specification's §8 step-function example
`[(0,100,1000),(100,200,2000),(200,+∞,3000)]`, with the open end written in
the distinct `lo-+` notation the parser's `max_val == '+'` branch accepts. -/
def specStepBreakpoints : List StepEntry :=
  [⟨.bounded 0 100, 1000⟩, ⟨.bounded 100 200, 2000⟩, ⟨.openEnded 200, 3000⟩]

/-- A step-function relationship whose breakpoints map driver value 0 to a
nonzero contribution. -/
def zeroSkipRel : PeriodRelationship :=
  ⟨"d1", "a1", .stepFunction [⟨.bounded (-10) 10, 1000⟩], 1⟩

/-- Assumptions assigning the value 0 to driver `d1` in period `p1`. -/
def zeroSkipAssumptions : Assumptions := [("d1", [("p1", 0)])]

/-- 24 calendar labels standing for the `datetime.now()`-derived months of a
sample-data generation run. -/
def sampleMonthsEx : List (ℕ × ℕ) := (List.range 24).map (fun k => (2025, k % 12 + 1))

/-- Six observations of constant revenue −100 (a series of refund months). -/
def negativeRevenueHistory : List RevObs :=
  [⟨2025, 1, -100⟩, ⟨2025, 2, -100⟩, ⟨2025, 3, -100⟩,
   ⟨2025, 4, -100⟩, ⟨2025, 5, -100⟩, ⟨2025, 6, -100⟩]

/-- Exponential trend with `growth_rate = 0` (so the monthly growth
`(1+0)^(1/12) − 1` is exactly 0). -/
noncomputable def expZeroGrowthParams : TrendParams :=
  { trendType := .exponential, growthRate := 0 }

/-- A single linear revenue relationship with coefficient 2. -/
def sensRels : List PeriodRelationship := [⟨"d1", "acc1", .linear, 2⟩]

def sensAccountTypes : List (String × String) := [("acc1", "revenue")]

/-- Baseline: driver `d1` worth 100 in the single period `p1`. -/
def sensBase : Assumptions := [("d1", [("p1", 100)])]

/-! # Claim theorems -/

/-! Shared helper lemmas. -/

lemma filterMap_guard_eq_map_filter {α β : Type} (p : α → Prop) [DecidablePred p]
    (f : α → β) (l : List α) :
    l.filterMap (fun a => if p a then some (f a) else none) =
      (l.filter (fun a => p a)).map f := by
  induction l with
  | nil => rfl
  | cons a t ih => by_cases h : p a <;> simp [List.filterMap_cons, h, ih]

lemma sum_sq_nonneg (l : List ℚ) (m : ℚ) : 0 ≤ (l.map (fun a => (a - m) ^ 2)).sum := by
  apply List.sum_nonneg
  intro x hx
  rcases List.mem_map.mp hx with ⟨a, _, rfl⟩
  positivity

lemma r2_branch (R S : ℚ) (hS : 0 ≤ S) :
    (if 0 < S then 1 - R / S else 0) = (if S = 0 then 0 else 1 - R / S) := by
  rcases eq_or_lt_of_le hS with h | h
  · simp [← h, lt_irrefl]
  · simp [h, h.ne.symm]

lemma npStd_nonneg (l : List ℝ) : 0 ≤ npStd l := Real.sqrt_nonneg _

lemma confidence_singleton : calculateForecastConfidence [5] [] (95 / 100) =
    [⟨5, 201 / 50, 299 / 50⟩] := by
  simp only [calculateForecastConfidence, List.length_singleton, List.range_succ]
  norm_num [Real.sqrt_one]

/-- **C2**: for every variance computation over actual and planned (budget)
amounts, an Expense-like (`account_type = "expense"`) line is favorable iff
`actual < planned` and unfavorable iff `actual > planned`; a Revenue-like
(non-expense) line is favorable iff `actual > planned` and unfavorable iff
`actual < planned`; and equality gives `neutral` for both natures. -/
theorem variance_direction_correct (t : String) (actual planned : ℚ) :
    (t = "expense" →
      ((varianceStatus t (simpleVariance actual planned) = "favorable" ↔
          actual < planned) ∧
       (varianceStatus t (simpleVariance actual planned) = "unfavorable" ↔
          planned < actual))) ∧
    (t ≠ "expense" →
      ((varianceStatus t (simpleVariance actual planned) = "favorable" ↔
          planned < actual) ∧
       (varianceStatus t (simpleVariance actual planned) = "unfavorable" ↔
          actual < planned))) ∧
    (actual = planned → varianceStatus t (simpleVariance actual planned) = "neutral") := by
  have hfu : ("favorable" : String) ≠ "unfavorable" := by decide
  have hnf : ("neutral" : String) ≠ "favorable" := by decide
  have hnu : ("neutral" : String) ≠ "unfavorable" := by decide
  rcases lt_trichotomy actual planned with h | h | h
  · have hv : simpleVariance actual planned < 0 := sub_neg.mpr h
    by_cases ht : t = "expense" <;>
      simp [varianceStatus, ht, hv, asymm hv, h, asymm h, hfu, hfu.symm, ne_of_lt h]
  · subst h
    have hv : simpleVariance actual actual = 0 := by simp [simpleVariance]
    by_cases ht : t = "expense" <;>
      simp [varianceStatus, ht, hv, lt_irrefl, hnf.symm, hnu.symm]
  · have hv : 0 < simpleVariance actual planned := sub_pos.mpr h
    by_cases ht : t = "expense" <;>
      simp [varianceStatus, ht, hv, asymm hv, h, asymm h, hfu, hfu.symm, ne_of_gt h]

/-- Witness for **C2** at the specification's §8 example (expense,
actual 80, planned 100 → favorable) and companions. -/
theorem variance_direction_correct_witness :
    varianceStatus "expense" (simpleVariance 80 100) = "favorable" ∧
    varianceStatus "revenue" (simpleVariance 120 100) = "favorable" ∧
    varianceStatus "revenue" (simpleVariance 100 100) = "neutral" :=
  ⟨((variance_direction_correct "expense" 80 100).1 rfl).1.mpr (by norm_num),
   ((variance_direction_correct "revenue" 120 100).2.1 (by decide)).1.mpr (by norm_num),
   (variance_direction_correct "revenue" 100 100).2.2 rfl⟩

/-- **C3** counterexample: the simple-analytics variance route returns
`variance_pct = 0` (defined, not null) when planned = 0 and actual = 50; and
the variance service divides by `ABS(budget)`, so for actual = −50,
planned = −100 it reports +50 where the claim's formula
`(actual−planned)/planned×100` gives −50. -/
theorem variance_pct_counterexample :
    simpleVariancePct 50 0 = 0 ∧
    svcVariancePercentage (-50) (-100) = some 50 ∧
    ((-50 : ℚ) - (-100)) / (-100) * 100 = -50 ∧ ((50 : ℚ) ≠ -50) := by
  refine ⟨by decide, ?_, by norm_num, by norm_num⟩
  rw [svcVariancePercentage, if_neg (by norm_num), abs_of_nonpos (by norm_num)]
  norm_num

/-- **C3** amended: the variance-analysis service reports
`(actual−planned)/|planned|×100` and `NULL` when planned = 0, while the
simple-analytics variance route reports `(actual−planned)/planned×100` but
`0` (not null) when planned = 0. -/
theorem variance_pct_amended (actual planned : ℚ) (h : planned ≠ 0) :
    svcVariancePercentage actual planned = some ((actual - planned) / |planned| * 100) ∧
    svcVariancePercentage actual 0 = none ∧
    simpleVariancePct actual planned = (actual - planned) / planned * 100 ∧
    simpleVariancePct actual 0 = 0 := by
  unfold svcVariancePercentage simpleVariancePct simpleVariance
  simp [h]

/-- Witness for **C3** amended at actual = 80, planned = 100 (variance
percentage −20, as in the specification's §8 example). -/
theorem variance_pct_amended_witness :
    (100 : ℚ) ≠ 0 ∧ svcVariancePercentage 80 100 = some (-20) ∧
    simpleVariancePct 80 100 = -20 := by
  have h := variance_pct_amended 80 100 (by norm_num)
  exact ⟨by norm_num, by rw [h.1]; norm_num, by rw [h.2.2.1]; norm_num⟩

/-- **C6** counterexample: creating a `custom_formula` relationship whose
formula references an undeclared driver succeeds (the row is inserted
verbatim); it does not fail with `InvalidFormula` — no validation exists at
relationship-creation time. -/
theorem formula_validation_counterexample :
    createDriverRelationship "d1" "a1" "custom_formula" 1
        (some (FormulaExpr.otherDriver "undeclared")) none =
      Except.ok (⟨"d1", "a1", none, "custom_formula", 1,
        some (FormulaExpr.otherDriver "undeclared"), true⟩ : DriverRelationshipRow) ∧
    createDriverRelationship "d1" "a1" "custom_formula" 1
        (some (FormulaExpr.otherDriver "undeclared")) none ≠
      Except.error EngineError.invalidFormula :=
  ⟨rfl, fun hcon => Except.noConfusion hcon⟩

/-- **C6** amended: relationship creation performs no formula validation and
always succeeds, and formula evaluation during a forecast run never raises:
every failing evaluation (undeclared driver reference surviving substitution,
malformed expression, division by zero) is caught and yields 0. -/
theorem formula_never_raises_amended (driverId glAccountId relType : String)
    (coeff : ℚ) (formula : Option FormulaExpr) (cc : Option String)
    (e : FormulaExpr) (dv : ℚ) (drivers : Assumptions) (pid : String)
    (h : evalFormulaExpr e dv drivers pid = none) :
    (∃ row, createDriverRelationship driverId glAccountId relType coeff formula cc =
      Except.ok row) ∧
    evaluateFormula e dv drivers pid = 0 :=
  ⟨⟨_, rfl⟩, by simp [evaluateFormula, h]⟩

/-- Witness for **C6** amended: an undeclared-driver reference evaluates to
`none` and hence the forecast-time value 0, while creation succeeded. -/
theorem formula_never_raises_amended_witness :
    evalFormulaExpr (FormulaExpr.otherDriver "undeclared") 5 [] "p1" = none ∧
    (∃ row, createDriverRelationship "d1" "a1" "custom_formula" 1
        (some (FormulaExpr.otherDriver "undeclared")) none = Except.ok row) ∧
    evaluateFormula (FormulaExpr.otherDriver "undeclared") 5 [] "p1" = 0 :=
  ⟨by decide,
   (formula_never_raises_amended "d1" "a1" "custom_formula" 1
      (some (FormulaExpr.otherDriver "undeclared")) none
      (FormulaExpr.otherDriver "undeclared") 5 [] "p1" (by decide)).1,
   (formula_never_raises_amended "d1" "a1" "custom_formula" 1
      (some (FormulaExpr.otherDriver "undeclared")) none
      (FormulaExpr.otherDriver "undeclared") 5 [] "p1" (by decide)).2⟩

/-- **C9**: step-function evaluation is the first-match piecewise lookup over
the ordered breakpoints — a bounded range matches on `lo ≤ v ≤ hi`, an
open-ended final range on `lo ≤ v`, anything unmatched yields 0 — and on the
specification's example breakpoints, driver values 150, 250 and −5 yield
2000, 3000 and 0. -/
theorem step_function_lookup :
    (∀ (steps : List StepEntry) (drv : ℚ),
      calculateStepFunction steps drv =
        ((steps.find? (fun s => stepMatches s.range drv)).map StepEntry.value).getD 0) ∧
    calculateStepFunction specStepBreakpoints 150 = 2000 ∧
    calculateStepFunction specStepBreakpoints 250 = 3000 ∧
    calculateStepFunction specStepBreakpoints (-5) = 0 := by
  refine ⟨?_, by decide, by decide, by decide⟩
  intro steps drv
  induction steps with
  | nil => rfl
  | cons s rest ih =>
    cases h : stepMatches s.range drv with
    | true => simp [calculateStepFunction, List.find?_cons_of_pos, h]
    | false => simp [calculateStepFunction, List.find?_cons_of_neg, h, ih]

/-- **C10**: a relationship whose driver value for the period is missing or 0
is skipped entirely — the account-value state is unchanged and the final
per-period account values are as if the relationship were absent —
regardless of its kind (in particular for step-function/percentage/formula
relationships whose mapping would assign a nonzero contribution at driver
value 0). -/
theorem zero_driver_relationship_skipped
    (assumptions : Assumptions) (periodId : String) (rel : PeriodRelationship)
    (h : (assumptionGet? assumptions rel.businessDriverId periodId).getD 0 = 0) :
    (∀ acc : AccMap, processRelationship assumptions periodId acc rel = acc) ∧
    ∀ pre post : List PeriodRelationship,
      periodAccountValues (pre ++ rel :: post) assumptions periodId =
        periodAccountValues (pre ++ post) assumptions periodId := by
  have hid : ∀ acc : AccMap, processRelationship assumptions periodId acc rel = acc := by
    intro acc
    simp [processRelationship, h]
  refine ⟨hid, ?_⟩
  intro pre post
  unfold periodAccountValues
  rw [List.foldl_append, List.foldl_append, List.foldl_cons, hid]

/-- Witness for **C10**: driver `d1` has value 0 in period `p1`; its
step-function relationship would contribute 1000 at driver value 0, yet the
period's account values equal those computed without the relationship. -/
theorem zero_driver_relationship_skipped_witness :
    (assumptionGet? zeroSkipAssumptions zeroSkipRel.businessDriverId "p1").getD 0 = 0 ∧
    relAccountValue [] zeroSkipAssumptions "p1" zeroSkipRel 0 = 1000 ∧
    periodAccountValues [zeroSkipRel] zeroSkipAssumptions "p1" =
      periodAccountValues [] zeroSkipAssumptions "p1" := by
  refine ⟨by decide, by decide, ?_⟩
  have := (zero_driver_relationship_skipped zeroSkipAssumptions "p1" zeroSkipRel
    (by decide)).2 [] []
  simpa using this

/-- **C5** (code defect, shallow-copy aliasing; settled against the
spec-modelled completion of the two absent collaborators `getDriverValues`
and `createBudgetLines` — on the source as written every call dies with
`AttributeError` at line 241 before any metric is recorded): one linear
relationship with coefficient 2 on a revenue account, baseline driver value
100 in one period, grid `[-10, 0, 10]`.  The source's `base_values.copy()`
shares the per-driver inner dict, so each grid point's scaling also rewrites
the baseline and the variations compound: the recorded revenues are
`[180, 180, 198]` — at variation 0 the engine records 180 — whereas
recomputing each grid point independently from the unmodified baseline
(`base × (1 + v/100)`, all else at baseline), as the claim states, yields
`[180, 200, 220]`. -/
theorem sensitivity_grid_compounds :
    (performSensitivityAnalysis sensRels sensAccountTypes sensBase "d1" (-10, 10) 3).map
        (fun s => (s.variationPct, s.revenue)) = [(-10, 180), (0, 180), (10, 198)] ∧
    (performSensitivityAnalysisIndependent sensRels sensAccountTypes sensBase "d1"
        (-10, 10) 3).map
        (fun s => (s.variationPct, s.revenue)) = [(-10, 180), (0, 200), (10, 220)] ∧
    ((180 : ℚ) ≠ 200) := by
  refine ⟨?_, ?_, by norm_num⟩
  · norm_num [performSensitivityAnalysis, getDriverValues, sensitivityLoop, linspace,
      List.range_succ, adjustDriverValues, calculateDriverBasedForecast,
      calculatePeriodForecast, createBudgetLines, periodAccountValues,
      processRelationship, relAccountValue, assumptionGet?, alistGet?, AccMap.addTo,
      AccMap.getD0, isRevenueAccount, isExpenseAccount, sensRels, sensAccountTypes,
      sensBase]
  · norm_num [performSensitivityAnalysisIndependent, getDriverValues, linspace,
      List.range_succ, adjustDriverValues, calculateDriverBasedForecast,
      calculatePeriodForecast, createBudgetLines, periodAccountValues,
      processRelationship, relAccountValue, assumptionGet?, alistGet?, AccMap.addTo,
      AccMap.getD0, isRevenueAccount, isExpenseAccount, sensRels, sensAccountTypes,
      sensBase]

/-- **C7** counterexample: on the series `[10, 0, 20, 30, 40, 50, 60]` the
evaluator drops the zero observation *before* splitting, so it reports
MAPE = 0, while the claim's procedure — split the historical series itself
70/30, fit the trend on the training slice (zero included), predict, and
average MAPE over the nonzero validation points — yields 115/9 ≈ 12.78. -/
theorem accuracy_prefilter_counterexample :
    (calculateAccuracyMetrics [10, 0, 20, 30, 40, 50, 60]).mape = 0 ∧
    (accuracyMetricsPerClaim [10, 0, 20, 30, 40, 50, 60]).mape = 115 / 9 ∧
    ((115 / 9 : ℚ) ≠ 0) := by
  refine ⟨?_, ?_, by norm_num⟩
  · norm_num [calculateAccuracyMetrics, accuracyMetricsPerClaim, accTrain, accTest,
      accPredictions, accPairs, List.range_succ, pyRound, pyRoundInt]
  · norm_num [calculateAccuracyMetrics, accuracyMetricsPerClaim, accTrain, accTest,
      accPredictions, accPairs, List.range_succ, pyRound, pyRoundInt]
    rw [abs_of_nonneg (by norm_num : (0:ℚ) ≤ 1/12), abs_of_nonneg (by norm_num : (0:ℚ) ≤ 2/15),
      abs_of_nonneg (by norm_num : (0:ℚ) ≤ 1/6)]
    norm_num

/-- **C7** amended: the evaluator first drops non-positive observations, then
applies the claimed procedure to the retained series: it splits it 70/30,
fits the mean-first-difference trend on the training slice, predicts the
validation slice, and reports exactly the claim's MAPE (an average over the
nonzero validation points — all retained points are nonzero), mean squared
error, and `R² = 1 − SSres/SStot` with 0 at `SStot = 0` (mape and R² rounded
to 2 resp. 4 decimals).  `get_forecast_accuracy` likewise averages MAPE only
over rows with nonzero actuals, excluding the rest from the average. -/
theorem accuracy_metrics_amended (revenuesAll : List ℚ)
    (h6 : 6 ≤ (revenuesAll.filter (fun r => 0 < r)).length) :
    (calculateAccuracyMetrics revenuesAll =
      { mape := pyRound 2 (accuracyMetricsPerClaim (revenuesAll.filter (fun r => 0 < r))).mape
        mse := (accuracyMetricsPerClaim (revenuesAll.filter (fun r => 0 < r))).mse
        rSquared :=
          pyRound 4 (accuracyMetricsPerClaim (revenuesAll.filter (fun r => 0 < r))).rSquared }) ∧
    ∀ data : List (ℚ × ℚ), 2 ≤ data.length →
      getForecastAccuracy data = Except.ok
        { mape := ((data.filter (fun p => p.2 ≠ 0)).map (fun p => |(p.2 - p.1) / p.2|)).sum /
            (((data.filter (fun p => p.2 ≠ 0)).length : ℚ)) * 100
          mae := (data.map (fun p => |p.2 - p.1|)).sum / (data.length : ℚ)
          mse := (data.map (fun p => (p.2 - p.1) ^ 2)).sum / (data.length : ℚ) } := by
  constructor
  · set revenues := revenuesAll.filter (fun r => 0 < r) with hrev
    have hpos : ∀ r ∈ revenues, 0 < r := by
      intro r hr
      rw [hrev] at hr
      simpa using (List.mem_filter.mp hr).2
    have hposPairs : ∀ p ∈ accPairs revenues, 0 < p.1 := by
      intro p hp
      obtain ⟨a, b⟩ := p
      exact hpos _ (List.mem_of_mem_drop (List.of_mem_zip hp).1)
    have hlentest : (accTest revenues).length = revenues.length - revenues.length * 7 / 10 := by
      simp [accTest]
    have hlentrain :
        (accTrain revenues).length = min (revenues.length * 7 / 10) revenues.length := by
      simp [accTrain]
    have hlen2 : ¬ ((accTrain revenues).length < 2 ∨ (accTest revenues).length < 2) := by
      rw [hlentrain, hlentest]
      omega
    have htestne : (accTest revenues).length ≠ 0 := by
      rw [hlentest]; omega
    have hlenpred : (accPredictions revenues).length = (accTest revenues).length := by
      simp only [accPredictions]
      rw [List.length_map, List.length_range]
    have hlenpairs : (accPairs revenues).length = (accTest revenues).length := by
      rw [accPairs, List.length_zip, hlenpred, min_self]
    have hguard : (accPairs revenues).map
        (fun p => if 0 < p.1 then |(p.1 - p.2) / p.1| else 0) =
        (accPairs revenues).map (fun p => |(p.1 - p.2) / p.1|) :=
      List.map_congr_left (fun p hp => if_pos (hposPairs p hp))
    have hfil : (accPairs revenues).filter (fun p => p.1 ≠ 0) = accPairs revenues :=
      List.filter_eq_self.mpr (fun p hp => by simpa using (hposPairs p hp).ne.symm)
    simp only [calculateAccuracyMetrics, accuracyMetricsPerClaim, ← hrev]
    rw [if_neg (by omega), if_neg hlen2]
    simp only [AccuracyMetrics.mk.injEq, hguard, hfil, hlenpairs, htestne]
    exact ⟨trivial, trivial, congrArg (pyRound 4) (r2_branch _ _ (sum_sq_nonneg _ _))⟩
  · intro data h2
    simp only [getForecastAccuracy]
    rw [if_neg (by omega)]
    rw [filterMap_guard_eq_map_filter (fun p : ℚ × ℚ => p.2 ≠ 0)
      (fun p => |(p.2 - p.1) / p.2|) data]
    rw [List.length_map]

/-- Witness for **C7** amended at a 10-point all-positive series (history
split 7/3) and a 2-row forecast/actual sample with one zero actual. -/
theorem accuracy_metrics_amended_witness :
    6 ≤ (([10, 20, 30, 40, 50, 60, 70, 80, 90, 100] : List ℚ).filter
        (fun r => 0 < r)).length ∧
    (calculateAccuracyMetrics [10, 20, 30, 40, 50, 60, 70, 80, 90, 100] =
      { mape := pyRound 2 (accuracyMetricsPerClaim
          (([10, 20, 30, 40, 50, 60, 70, 80, 90, 100] : List ℚ).filter
            (fun r => 0 < r))).mape
        mse := (accuracyMetricsPerClaim
          (([10, 20, 30, 40, 50, 60, 70, 80, 90, 100] : List ℚ).filter
            (fun r => 0 < r))).mse
        rSquared := pyRound 4 (accuracyMetricsPerClaim
          (([10, 20, 30, 40, 50, 60, 70, 80, 90, 100] : List ℚ).filter
            (fun r => 0 < r))).rSquared }) ∧
    2 ≤ ([((100 : ℚ), (90 : ℚ)), (50, 0)] : List (ℚ × ℚ)).length ∧
    getForecastAccuracy [((100 : ℚ), (90 : ℚ)), (50, 0)] = Except.ok
      { mape := ((([((100 : ℚ), (90 : ℚ)), (50, 0)] : List (ℚ × ℚ)).filter
            (fun p => p.2 ≠ 0)).map (fun p => |(p.2 - p.1) / p.2|)).sum /
          ((((([((100 : ℚ), (90 : ℚ)), (50, 0)] : List (ℚ × ℚ)).filter
            (fun p => p.2 ≠ 0)).length) : ℚ)) * 100
        mae := (([((100 : ℚ), (90 : ℚ)), (50, 0)] : List (ℚ × ℚ)).map
            (fun p => |p.2 - p.1|)).sum / 2
        mse := (([((100 : ℚ), (90 : ℚ)), (50, 0)] : List (ℚ × ℚ)).map
            (fun p => (p.2 - p.1) ^ 2)).sum / 2 } := by
  have h6 : 6 ≤ (([10, 20, 30, 40, 50, 60, 70, 80, 90, 100] : List ℚ).filter
      (fun r => 0 < r)).length := by decide
  have h2 : 2 ≤ ([((100 : ℚ), (90 : ℚ)), (50, 0)] : List (ℚ × ℚ)).length := by decide
  refine ⟨h6, (accuracy_metrics_amended _ h6).1, h2, ?_⟩
  have := (accuracy_metrics_amended [10, 20, 30, 40, 50, 60, 70, 80, 90, 100] h6).2
    [((100 : ℚ), (90 : ℚ)), (50, 0)] h2
  simpa using this

/-- **C1** counterexample: a trend forecast request over an *empty* history
(0 observations, below every method minimum) does not fail — the engine
replaces the history with its own 24 generated sample observations and
returns a 12-point forecast computed from them. -/
theorem sample_substitution_counterexample :
    generateRevenueForecastTrend [] {} sampleMonthsEx (List.replicate 24 0) =
      trendAnalysisForecast (sampleRevenueData sampleMonthsEx (List.replicate 24 0)) {} ∧
    (sampleRevenueData sampleMonthsEx (List.replicate 24 0)).length = 24 ∧
    (generateRevenueForecastTrend [] {} sampleMonthsEx
      (List.replicate 24 0)).forecastData.length = 12 := by
  refine ⟨rfl, ?_, ?_⟩
  · simp [sampleRevenueData, sampleMonthsEx]
  · simp [generateRevenueForecastTrend, trendAnalysisForecast, trendForecastValues]

/-- **C1** amended: `ForecastingService.create_linear_trend_forecast` returns
an insufficient-data error result (not a forecast) below its 6-observation
minimum, but `RevenuePlanningService.generate_revenue_forecast` never fails
on short history: whenever the fetched history has fewer than 6 observations
it substitutes engine-generated sample data and forecasts from that. -/
theorem insufficient_history_amended (historicalData : List ℚ) (fp : ℕ)
    (h : historicalData.length < 6) :
    createLinearTrendForecast historicalData fp =
      Except.error "Insufficient historical data" ∧
    ∀ (hist : List RevObs) (p : TrendParams) (months : List (ℕ × ℕ)) (noise : List ℝ),
      hist.length < 6 →
      generateRevenueForecastTrend hist p months noise =
        trendAnalysisForecast (sampleRevenueData months noise) p := by
  constructor
  · simp [createLinearTrendForecast, h]
  · intro hist p months noise hh
    simp [generateRevenueForecastTrend, hh]

/-- Witness for **C1** amended at the empty history. -/
theorem insufficient_history_amended_witness :
    ([] : List ℚ).length < 6 ∧
    createLinearTrendForecast [] 12 = Except.error "Insufficient historical data" ∧
    ([] : List RevObs).length < 6 ∧
    generateRevenueForecastTrend [] {} sampleMonthsEx (List.replicate 24 0) =
      trendAnalysisForecast (sampleRevenueData sampleMonthsEx (List.replicate 24 0)) {} := by
  refine ⟨by decide, (insufficient_history_amended [] 12 (by decide)).1, by decide, ?_⟩
  exact (insufficient_history_amended [] 12 (by decide)).2 [] {} sampleMonthsEx
    (List.replicate 24 0) (by decide)

/-- **C4** counterexample: the exponential trend on six periods of constant
revenue −100 with growth rate 0 produces the point estimate −100 with
volatility 0, whose confidence interval is `lower = max(0, −100) = 0`,
`upper = −100`: `interval_low ≤ point_estimate` fails (0 ≰ −100). -/
theorem interval_bounds_counterexample :
    ((trendAnalysisForecast negativeRevenueHistory
        expZeroGrowthParams).confidenceIntervals.head?.map
      (fun c => (c.lower, c.forecast, c.upper))) = some (0, -100, -100) ∧
    ¬ ((0 : ℝ) ≤ -100) := by
  constructor
  · simp only [trendAnalysisForecast, trendForecastValues, expZeroGrowthParams,
      negativeRevenueHistory, calculateForecastConfidence, npStd, rmean,
      List.map_cons, List.map_nil]
    norm_num [Real.one_rpow, List.range_succ, Real.sqrt_zero]
  · norm_num

/-- **C4** amended: `interval_low ≤ point_estimate ≤ interval_high` holds for
every point of the linear-trend forecasting service (symmetric ±1.96·σ band),
and for every revenue-planning confidence interval whose point estimate is
nonnegative — which covers every floored strategy branch; it fails only for
negative point estimates (exponential branch on negative history), where the
lower bound is clamped to 0 above the estimate. -/
theorem interval_bounds_amended :
    (∀ pt : LinearForecastPoint,
      pt.intervalLow ≤ (pt.forecastedAmount : ℝ) ∧
      (pt.forecastedAmount : ℝ) ≤ pt.intervalHigh) ∧
    ∀ (fvals hist : List ℝ) (cl : ℚ), ∀ c ∈ calculateForecastConfidence fvals hist cl,
      0 ≤ c.forecast → c.lower ≤ c.forecast ∧ c.forecast ≤ c.upper := by
  constructor
  · intro pt
    have hs : (0 : ℝ) ≤ (196 / 100 : ℝ) * Real.sqrt (pt.residualMsd : ℝ) :=
      mul_nonneg (by norm_num) (Real.sqrt_nonneg _)
    constructor
    · simp only [LinearForecastPoint.intervalLow]
      linarith
    · simp only [LinearForecastPoint.intervalHigh]
      linarith
  · intro fvals hist cl c hc hf
    simp only [calculateForecastConfidence] at hc
    rcases List.mem_map.mp hc with ⟨⟨i, f⟩, hmem, rfl⟩
    simp only at hf ⊢
    set vol := if 1 < hist.length then
        npStd ((hist.zip (hist.drop 1)).map (fun q => (q.2 - q.1) / q.1))
      else (1 : ℝ) / 10 with hvol
    set z : ℝ := if cl = 90 / 100 then 1645 / 1000
      else if cl = 95 / 100 then 196 / 100
      else if cl = 99 / 100 then 2576 / 1000
      else 196 / 100 with hz
    have hvnn : 0 ≤ vol := by
      rw [hvol]
      split_ifs
      · exact npStd_nonneg _
      · norm_num
    have hznn : 0 < z := by
      rw [hz]
      split_ifs <;> norm_num
    have hu : 0 ≤ vol * Real.sqrt ((i : ℝ) + 1) * z :=
      mul_nonneg (mul_nonneg hvnn (Real.sqrt_nonneg _)) hznn.le
    set u := vol * Real.sqrt ((i : ℝ) + 1) * z
    constructor
    · refine max_le hf ?_
      nlinarith
    · nlinarith

/-- Witness for **C4** amended: the interval of the single forecast value 5
(volatility fallback 0.1, z = 1.96) is `[4.02, 5.98]` and brackets it. -/
theorem interval_bounds_amended_witness :
    (⟨5, 201 / 50, 299 / 50⟩ : ConfInterval) ∈
      calculateForecastConfidence [5] [] (95 / 100) ∧
    (0 : ℝ) ≤ (5 : ℝ) ∧
    ((201 / 50 : ℝ) ≤ 5 ∧ (5 : ℝ) ≤ 299 / 50) := by
  refine ⟨by rw [confidence_singleton]; exact List.mem_singleton_self _, by norm_num, ?_⟩
  have h := interval_bounds_amended.2 [5] [] (95 / 100) ⟨5, 201 / 50, 299 / 50⟩
    (by rw [confidence_singleton]; exact List.mem_singleton_self _) (by norm_num)
  simpa using h

/-- **C8** counterexample: the linear-trend forecasting service applies no
zero floor — on the declining revenue series `[5, 4, 3, 2, 1, 0]` (an exact
line `y = 5 − x`) its first forecast point is −1 < 0. -/
theorem linear_trend_negative_counterexample :
    (createLinearTrendForecast [5, 4, 3, 2, 1, 0] 12).toOption.bind
      (fun r => r.forecasts.head?.map LinearForecastPoint.forecastedAmount) =
      some (-1) ∧
    ((-1 : ℚ) < 0) := by
  refine ⟨?_, by norm_num⟩
  norm_num [createLinearTrendForecast, cleanOutliers, listMean, sampleVar, fitSlope,
    fitIntercept, listMin, List.range_succ, Except.toOption]

/-- **C8** amended: the zero floor (`max(0, forecast_value)`) holds for every
point of the revenue-planning *linear* trend branch (as for its polynomial /
seasonal / regression branches in the source), but not for the exponential
branch nor for `ForecastingService.create_linear_trend_forecast`, which can
return negative point estimates; no net/margin-metric exception exists
anywhere in the code. -/
theorem forecast_floor_amended (historical : List RevObs) (p : TrendParams)
    (hp : p.trendType = TrendType.linear) :
    ∀ x ∈ (trendAnalysisForecast historical p).forecastData, 0 ≤ x := by
  intro x hx
  simp only [trendAnalysisForecast, trendForecastValues, hp] at hx
  rcases List.mem_map.mp hx with ⟨j, _, rfl⟩
  exact le_max_left 0 _

/-- Witness for **C8** amended: the linear branch floors the same declining
series whose service forecast is negative. -/
theorem forecast_floor_amended_witness :
    (({} : TrendParams).trendType = TrendType.linear) ∧
    ∀ x ∈ (trendAnalysisForecast
      [⟨2025, 1, 5⟩, ⟨2025, 2, 4⟩, ⟨2025, 3, 3⟩, ⟨2025, 4, 2⟩, ⟨2025, 5, 1⟩, ⟨2025, 6, 0⟩]
      {}).forecastData, 0 ≤ x :=
  ⟨rfl, forecast_floor_amended _ {} rfl⟩

end OpenFPA
